import Mathlib

/-!
# Verification of the CLogger text-logging library

Shallow embedding of src/text_logger_lib/text_logger.c (a bounded, buffered
text logger) and proofs about its buffer, file-budget and status behaviour.

Modelling conventions:
* C int values are modelled as Int (no overflow is exercised by the claims).
* C strings are List Char; a NULL pointer argument is Option.none.
* The backing file is a World holding the file byte contents; fopen, fwrite
  and ftell outcomes are supplied by an FsEnv oracle (openOk says whether
  fopen succeeds; fwriteRet says how many of n requested bytes fwrite
  reports written, clamped to at most n as fwrite never reports more).
* snprintf(dst, size, ...) stores at most size - 1 bytes but RETURNS the
  length of the full formatted string; the code adds that return value to
  currBytePos and totalBytesStored.
* Heap allocation is modelled as succeeding; clock acquisition is external,
  so the formatted timestamp string is an explicit input of the operations.
* Each public operation returns a status, the new context, the new world,
  and the list of byte chunks appended to the file during the call (one
  chunk per fwrite call; fromBuffer distinguishes a scratch-buffer drain
  from the end-marker write).
-/

namespace CLogger

/-- Return status enum TextLoggerStatusType from text_logger.h. -/
inductive TextLoggerStatusType where
  | TEXTLOGGER_SUCCESS
  | TEXTLOGGER_ERR_FILE_ERROR
  | TEXTLOGGER_ERR_INVALID_INPUT
  | TEXTLOGGER_ERR_INSUFFICIENT_FILE_SPACE
deriving DecidableEq, Repr

open TextLoggerStatusType

/-- LogLevelType ordinal LOG_LEVEL_ERROR = 1 (text_logger.h). -/
def LOG_LEVEL_ERROR : Int := 1

/-- LogLevelType ordinal LOG_LEVEL_WARN = 2 (text_logger.h). -/
def LOG_LEVEL_WARN : Int := 2

/-- LogLevelType ordinal LOG_LEVEL_INFO = 3 (text_logger.h). -/
def LOG_LEVEL_INFO : Int := 3

/-- LogLevelType ordinal LOG_LEVEL_DEBUG = 4 (text_logger.h). -/
def LOG_LEVEL_DEBUG : Int := 4

/-- LogLevelType ordinal LOG_LEVEL_VERBOSE = 5 (text_logger.h). -/
def LOG_LEVEL_VERBOSE : Int := 5

/-- LOG_EXTRA_STR_LENGTH (6): accounts for the five tag bytes plus the
trailing newline added around a log message (text_logger.c line 23). -/
def LOG_EXTRA_STR_LENGTH : Int := 6

/-- struct LoggerContext (text_logger.c lines 41..52). pLogFile is scoped to
each flush and lives in World; pTextBuffer models the meaningful bytes of
the scratch region written so far (in truncation-free runs its length
equals currBytePos). -/
structure LoggerContext where
  pTextBuffer : List Char
  pFilePath : List Char
  pErrMsg : List Char
  logLevel : Int
  maxBufferByteSize : Int
  maxFileSize : Int
  currBytePos : Int
  totalBytesStored : Int
  fileLimitIsReached : Bool
deriving DecidableEq, Repr

/-- The backing file: an append-only byte sink with a length query. -/
structure World where
  file : List Char
deriving DecidableEq, Repr

/-- Outcome oracle for the file-system calls of one flush: whether fopen
succeeds, and how many of n requested bytes fwrite reports written. -/
structure FsEnv where
  openOk : Bool
  fwriteRet : Nat → Nat

/-- One fwrite call: the bytes it appended to the file, and whether they
came from the scratch buffer (as opposed to the end-marker string). -/
structure Chunk where
  bytes : List Char
  fromBuffer : Bool
deriving DecidableEq, Repr

/-- Result of one operation: status, context, world and the chunks the
operation appended to the file. -/
structure OpResult where
  status : TextLoggerStatusType
  ctx : LoggerContext
  world : World
  chunks : List Chunk
deriving DecidableEq, Repr

/-- Bytes actually stored by snprintf(dst, size, ...) whose full formatted
output is s: nothing when size is not positive, otherwise at most size - 1
bytes plus a terminator. The C return value is s.length regardless. -/
def snprintfStored (size : Int) (s : List Char) : List Char :=
  if size ≤ 0 then [] else s.take (min (size - 1).toNat s.length)

/-- The buffer-append step shared by TextLogger_LogTimeStamp (lines 193..200)
and TextLogger_WriteToBuffer (lines 253..260): snprintf into the remaining
space maxBufferByteSize - currBytePos, then advance currBytePos and
totalBytesStored by the snprintf return value, the untruncated length. -/
def snprintfAppend (ctx : LoggerContext) (s : List Char) : LoggerContext :=
  { ctx with
    pTextBuffer := ctx.pTextBuffer ++
      snprintfStored (ctx.maxBufferByteSize - ctx.currBytePos) s
    currBytePos := ctx.currBytePos + (s.length : Int)
    totalBytesStored := ctx.totalBytesStored + (s.length : Int) }

/-- The severity tag chosen by TextLogger_WriteToBuffer (lines 226..237);
for an ordinal outside 1..5 the C array is left uninitialized, modelled
as the empty string. -/
def logMsgTag (logLevel : Int) : List Char :=
  if logLevel = LOG_LEVEL_ERROR then ['[', 'E', ']', ':', ' ']
  else if logLevel = LOG_LEVEL_WARN then ['[', 'W', ']', ':', ' ']
  else if logLevel = LOG_LEVEL_INFO then ['[', 'I', ']', ':', ' ']
  else if logLevel = LOG_LEVEL_DEBUG then ['[', 'D', ']', ':', ' ']
  else if logLevel = LOG_LEVEL_VERBOSE then ['[', 'V', ']', ':', ' ']
  else []

/-- TextLogger_Create (lines 58..112). NULL string arguments are none; the
stored maxFileSize is the caller budget minus strlen(pErrMsg) + 1 and must
be positive; heap allocation is modelled as succeeding. -/
def TextLogger_Create (pFilePath pErrMsg : Option (List Char))
    (logLevel maxBufferByteSize maxFileSize : Int) : Option LoggerContext :=
  match pFilePath, pErrMsg with
  | some fp, some em =>
    let maxFileSizeAdj : Int := maxFileSize - ((em.length : Int) + 1)
    if maxFileSizeAdj ≤ 0 then none
    else some { pTextBuffer := []
                pFilePath := fp
                pErrMsg := em
                logLevel := logLevel
                maxBufferByteSize := maxBufferByteSize
                maxFileSize := maxFileSizeAdj
                currBytePos := 0
                totalBytesStored := 0
                fileLimitIsReached := false }
  | _, _ => none

/-- TextLogger_FlushBufferIsNeeded (lines 159..167): true when the text to
add meets or exceeds the remaining file budget or the remaining buffer
space. -/
def TextLogger_FlushBufferIsNeeded (ctx : LoggerContext)
    (lengthOfTextToAdd : Int) : Bool :=
  if ctx.maxFileSize - ctx.totalBytesStored ≤ lengthOfTextToAdd ∨
     ctx.maxBufferByteSize - ctx.currBytePos ≤ lengthOfTextToAdd then
    true
  else
    false

/-- TextLogger_FlushErrMsgToFileStream (lines 354..373): open append, write
strlen(pErrMsg) bytes of the error message, file error on open failure or
short write. -/
def TextLogger_FlushErrMsgToFileStream (env : FsEnv) (ctx : LoggerContext)
    (w : World) : OpResult :=
  if env.openOk = false then
    { status := TEXTLOGGER_ERR_FILE_ERROR, ctx := ctx, world := w, chunks := [] }
  else
    let n := ctx.pErrMsg.length
    let bytesWritten := min n (env.fwriteRet n)
    let chunk : Chunk := { bytes := ctx.pErrMsg.take bytesWritten, fromBuffer := false }
    let w2 : World := { file := w.file ++ chunk.bytes }
    if bytesWritten ≠ n then
      { status := TEXTLOGGER_ERR_FILE_ERROR, ctx := ctx, world := w2, chunks := [chunk] }
    else
      { status := TEXTLOGGER_SUCCESS, ctx := ctx, world := w2, chunks := [chunk] }

/-- TextLogger_FlushTextToFileStream (lines 375..441). Budget-reached branch
latches fileLimitIsReached and writes the error message once; otherwise an
empty buffer returns success; otherwise open, query length, and either
detect overshoot (latch, no write, reset currBytePos) or write currBytePos
bytes from the buffer and reset currBytePos. -/
def TextLogger_FlushTextToFileStream (env : FsEnv) (ctx : LoggerContext)
    (w : World) : OpResult :=
  if ctx.maxFileSize ≤ ctx.totalBytesStored then
    if ctx.fileLimitIsReached = false then
      let ctx1 := { ctx with fileLimitIsReached := true }
      let r := TextLogger_FlushErrMsgToFileStream env ctx1 w
      if r.status = TEXTLOGGER_ERR_FILE_ERROR then r
      else { r with status := TEXTLOGGER_ERR_INSUFFICIENT_FILE_SPACE }
    else
      { status := TEXTLOGGER_ERR_INSUFFICIENT_FILE_SPACE, ctx := ctx, world := w,
        chunks := [] }
  else if ctx.currBytePos = 0 then
    { status := TEXTLOGGER_SUCCESS, ctx := ctx, world := w, chunks := [] }
  else if env.openOk = false then
    { status := TEXTLOGGER_ERR_FILE_ERROR, ctx := ctx, world := w, chunks := [] }
  else
    let currFileSize : Int := (w.file.length : Int)
    if ctx.currBytePos + currFileSize > ctx.maxFileSize then
      { status := TEXTLOGGER_ERR_INSUFFICIENT_FILE_SPACE
        ctx := { ctx with fileLimitIsReached := true, currBytePos := 0, pTextBuffer := [] }
        world := w
        chunks := [] }
    else
      let n := ctx.currBytePos.toNat
      let bytesWritten := min n (env.fwriteRet n)
      let chunk : Chunk := { bytes := ctx.pTextBuffer.take bytesWritten, fromBuffer := true }
      let w2 : World := { file := w.file ++ chunk.bytes }
      if bytesWritten ≠ n then
        { status := TEXTLOGGER_ERR_FILE_ERROR, ctx := ctx, world := w2,
          chunks := [chunk] }
      else
        { status := TEXTLOGGER_SUCCESS
          ctx := { ctx with currBytePos := 0, pTextBuffer := [] }
          world := w2
          chunks := [chunk] }

/-- TextLogger_LogTimeStamp (lines 169..203). The formatted timestamp string
pTimeBuffer is an input (clock acquisition is external; in C it is at most
127 bytes): flush first when the flush-decision predicate fires, then
append the timestamp to the buffer. -/
def TextLogger_LogTimeStamp (pTimeBuffer : List Char) (env : FsEnv)
    (ctx : LoggerContext) (w : World) : OpResult :=
  if TextLogger_FlushBufferIsNeeded ctx (pTimeBuffer.length : Int) then
    let r := TextLogger_FlushTextToFileStream env ctx w
    if r.status ≠ TEXTLOGGER_SUCCESS then r
    else { status := TEXTLOGGER_SUCCESS, ctx := snprintfAppend r.ctx pTimeBuffer,
           world := r.world, chunks := r.chunks }
  else
    { status := TEXTLOGGER_SUCCESS, ctx := snprintfAppend ctx pTimeBuffer,
      world := w, chunks := [] }

/-- TextLogger_WriteToBuffer (lines 219..263): choose the tag, emit a
timestamp (which may flush, using env1), then check the predicate against
logLength (flushing with env2 if needed) and append tag, text and newline
in one snprintf. -/
def TextLogger_WriteToBuffer (pTimeBuffer : List Char) (env1 env2 : FsEnv)
    (ctx : LoggerContext) (w : World) (pLogText : List Char)
    (logLength : Int) (logLevel : Int) : OpResult :=
  let pLogMsgTag := logMsgTag logLevel
  let r1 := TextLogger_LogTimeStamp pTimeBuffer env1 ctx w
  if r1.status ≠ TEXTLOGGER_SUCCESS then r1
  else if TextLogger_FlushBufferIsNeeded r1.ctx logLength then
    let r2 := TextLogger_FlushTextToFileStream env2 r1.ctx r1.world
    if r2.status ≠ TEXTLOGGER_SUCCESS then { r2 with chunks := r1.chunks ++ r2.chunks }
    else { status := TEXTLOGGER_SUCCESS
           ctx := snprintfAppend r2.ctx (pLogMsgTag ++ pLogText ++ ['\n'])
           world := r2.world
           chunks := r1.chunks ++ r2.chunks }
  else
    { status := TEXTLOGGER_SUCCESS
      ctx := snprintfAppend r1.ctx (pLogMsgTag ++ pLogText ++ ['\n'])
      world := r1.world
      chunks := r1.chunks }

/-- TextLogger_LogError (lines 265..279): admit when LOG_LEVEL_ERROR is at
most logLevel, else drop silently with success. -/
def TextLogger_LogError (pTimeBuffer : List Char) (env1 env2 : FsEnv)
    (ctx : LoggerContext) (w : World) (pLogText : List Char) : OpResult :=
  if LOG_LEVEL_ERROR ≤ ctx.logLevel then
    TextLogger_WriteToBuffer pTimeBuffer env1 env2 ctx w pLogText
      ((pLogText.length : Int) + LOG_EXTRA_STR_LENGTH) LOG_LEVEL_ERROR
  else
    { status := TEXTLOGGER_SUCCESS, ctx := ctx, world := w, chunks := [] }

/-- TextLogger_LogWarn (lines 281..295). -/
def TextLogger_LogWarn (pTimeBuffer : List Char) (env1 env2 : FsEnv)
    (ctx : LoggerContext) (w : World) (pLogText : List Char) : OpResult :=
  if LOG_LEVEL_WARN ≤ ctx.logLevel then
    TextLogger_WriteToBuffer pTimeBuffer env1 env2 ctx w pLogText
      ((pLogText.length : Int) + LOG_EXTRA_STR_LENGTH) LOG_LEVEL_WARN
  else
    { status := TEXTLOGGER_SUCCESS, ctx := ctx, world := w, chunks := [] }

/-- TextLogger_LogInfo (lines 297..311). -/
def TextLogger_LogInfo (pTimeBuffer : List Char) (env1 env2 : FsEnv)
    (ctx : LoggerContext) (w : World) (pLogText : List Char) : OpResult :=
  if LOG_LEVEL_INFO ≤ ctx.logLevel then
    TextLogger_WriteToBuffer pTimeBuffer env1 env2 ctx w pLogText
      ((pLogText.length : Int) + LOG_EXTRA_STR_LENGTH) LOG_LEVEL_INFO
  else
    { status := TEXTLOGGER_SUCCESS, ctx := ctx, world := w, chunks := [] }

/-- TextLogger_LogDebug (lines 313..327). -/
def TextLogger_LogDebug (pTimeBuffer : List Char) (env1 env2 : FsEnv)
    (ctx : LoggerContext) (w : World) (pLogText : List Char) : OpResult :=
  if LOG_LEVEL_DEBUG ≤ ctx.logLevel then
    TextLogger_WriteToBuffer pTimeBuffer env1 env2 ctx w pLogText
      ((pLogText.length : Int) + LOG_EXTRA_STR_LENGTH) LOG_LEVEL_DEBUG
  else
    { status := TEXTLOGGER_SUCCESS, ctx := ctx, world := w, chunks := [] }

/-- TextLogger_LogVerbose (lines 329..343). -/
def TextLogger_LogVerbose (pTimeBuffer : List Char) (env1 env2 : FsEnv)
    (ctx : LoggerContext) (w : World) (pLogText : List Char) : OpResult :=
  if LOG_LEVEL_VERBOSE ≤ ctx.logLevel then
    TextLogger_WriteToBuffer pTimeBuffer env1 env2 ctx w pLogText
      ((pLogText.length : Int) + LOG_EXTRA_STR_LENGTH) LOG_LEVEL_VERBOSE
  else
    { status := TEXTLOGGER_SUCCESS, ctx := ctx, world := w, chunks := [] }

/-- TextLogger_Destroy (lines 114..148) on a non-null handle: performs a
final flush and returns its status; the storage release has no ledger
effect, so the flush result stands for the observable outcome. -/
def TextLogger_Destroy (env : FsEnv) (ctx : LoggerContext) (w : World) : OpResult :=
  TextLogger_FlushTextToFileStream env ctx w

/-- The buffer bound of spec invariant 1: 0 ≤ buffer_used ≤ buffer_capacity. -/
def BufferInv (ctx : LoggerContext) : Prop :=
  0 ≤ ctx.currBytePos ∧ ctx.currBytePos ≤ ctx.maxBufferByteSize

/-- A fixed 24-byte formatted timestamp, as produced by the strftime-style
formatter for any four-digit year. -/
def tsA : List Char := "[2024-01-02 | 03:04:05] ".toList

/-- File-system oracle where every call succeeds and writes are complete. -/
def envOk : FsEnv := { openOk := true, fwriteRet := fun n => n }

/-- File-system oracle where fopen fails. -/
def envOpenFail : FsEnv := { openOk := false, fwriteRet := fun n => n }

/-- An initially empty backing file. -/
def w0 : World := { file := [] }

/-- A backing file already holding 120 bytes. -/
def w120 : World := { file := List.replicate 120 'a' }

/-- Context produced by TextLogger_Create for path f, end marker X,
min level VERBOSE, buffer capacity 10, file budget 2048. -/
def ctxSmallBuf : LoggerContext :=
  { pTextBuffer := [], pFilePath := ['f'], pErrMsg := ['X'], logLevel := 5,
    maxBufferByteSize := 10, maxFileSize := 2046, currBytePos := 0,
    totalBytesStored := 0, fileLimitIsReached := false }

/-- Context produced by TextLogger_Create for path f, end marker END,
min level VERBOSE, buffer capacity 256, file budget 300 (the S5 scenario of
the spec): effective budget 296. -/
def ctxS5 : LoggerContext :=
  { pTextBuffer := [], pFilePath := ['f'], pErrMsg := "END".toList, logLevel := 5,
    maxBufferByteSize := 256, maxFileSize := 296, currBytePos := 0,
    totalBytesStored := 0, fileLimitIsReached := false }

/-- Context produced by TextLogger_Create for path f, end marker X,
min level VERBOSE, buffer capacity 1024, file budget 2048. -/
def ctxBasic : LoggerContext :=
  { pTextBuffer := [], pFilePath := ['f'], pErrMsg := ['X'], logLevel := 5,
    maxBufferByteSize := 1024, maxFileSize := 2046, currBytePos := 0,
    totalBytesStored := 0, fileLimitIsReached := false }

/-- Context produced by TextLogger_Create for path f, end marker X,
min level VERBOSE, buffer capacity 40, file budget 2048. -/
def ctxSplit : LoggerContext :=
  { pTextBuffer := [], pFilePath := ['f'], pErrMsg := ['X'], logLevel := 5,
    maxBufferByteSize := 40, maxFileSize := 2046, currBytePos := 0,
    totalBytesStored := 0, fileLimitIsReached := false }

/-- Context produced by TextLogger_Create for path f, end marker XX,
min level VERBOSE, buffer capacity 100, file budget 10: effective budget 7. -/
def ctxTight : LoggerContext :=
  { pTextBuffer := [], pFilePath := ['f'], pErrMsg := "XX".toList, logLevel := 5,
    maxBufferByteSize := 100, maxFileSize := 7, currBytePos := 0,
    totalBytesStored := 0, fileLimitIsReached := false }

/-- Context produced by TextLogger_Create for path f, end marker XX,
min level VERBOSE, buffer capacity 100, file budget 30: effective budget 27. -/
def ctxTight27 : LoggerContext :=
  { pTextBuffer := [], pFilePath := ['f'], pErrMsg := "XX".toList, logLevel := 5,
    maxBufferByteSize := 100, maxFileSize := 27, currBytePos := 0,
    totalBytesStored := 0, fileLimitIsReached := false }

/-- A context that has reached its file budget and has latched the limit
flag: effective budget 7, 24 bytes accounted, empty scratch buffer. -/
def ctxLimit : LoggerContext :=
  { pTextBuffer := [], pFilePath := ['f'], pErrMsg := ['X'], logLevel := 5,
    maxBufferByteSize := 100, maxFileSize := 7, currBytePos := 0,
    totalBytesStored := 24, fileLimitIsReached := true }

/-- One 200-byte record (timestamp plus 176-byte verbose line) logged on
ctxS5 against a file already holding 120 bytes: admitted and buffered. -/
def runA1 : OpResult :=
  TextLogger_LogVerbose tsA envOk envOk ctxS5 w120 (List.replicate 170 'x')

/-- Flushing runA1: the overshoot check sees 200 + 120 > 296. -/
def runA2 : OpResult := TextLogger_FlushTextToFileStream envOk runA1.ctx runA1.world

/-- A further flush after the overshoot latch of runA2. -/
def runA3 : OpResult := TextLogger_FlushTextToFileStream envOk runA2.ctx runA2.world

/-- An Info record on the 40-byte-buffer context: the intermediate flush
fires between the timestamp and the tagged line. -/
def runB1 : OpResult := TextLogger_LogInfo tsA envOk envOk ctxSplit w0 (List.replicate 20 'x')

/-- Flushing the remainder of the record buffered by runB1. -/
def runB2 : OpResult := TextLogger_FlushTextToFileStream envOk runB1.ctx runB1.world

/-- An Error record on a fresh large-buffer context: fully buffered, no
file traffic. -/
def runC4 : OpResult := TextLogger_LogError tsA envOk envOk ctxBasic w0 "hello".toList

/-- A timestamp on the tight-budget context: buffered after a trivial
flush, driving totalBytesStored past the 7-byte effective budget. -/
def runC7a : OpResult := TextLogger_LogTimeStamp tsA envOk ctxTight w0

/-- Flushing runC7a with fopen failing: the budget-reached branch latches
the limit flag, then the end-marker write fails. -/
def runC7b : OpResult := TextLogger_FlushTextToFileStream envOpenFail runC7a.ctx runC7a.world

/-- An Error record on the 27-byte-budget context with the second flush
failing at fopen: the timestamp was already buffered and accounted. -/
def runC7c : OpResult := TextLogger_LogError tsA envOk envOpenFail ctxTight27 w0 "msg".toList

/-- Context produced by TextLogger_Create for path f, end marker X,
min level VERBOSE, buffer capacity 8, file budget 100. -/
def ctx98 : LoggerContext :=
  { pTextBuffer := [], pFilePath := ['f'], pErrMsg := ['X'], logLevel := 5,
    maxBufferByteSize := 8, maxFileSize := 98, currBytePos := 0,
    totalBytesStored := 0, fileLimitIsReached := false }

/-- Context produced by TextLogger_Create for path f, end marker X,
min level INFO, buffer capacity 1024, file budget 2048. -/
def ctxInfoLevel : LoggerContext :=
  { pTextBuffer := [], pFilePath := ['f'], pErrMsg := ['X'], logLevel := 3,
    maxBufferByteSize := 1024, maxFileSize := 2046, currBytePos := 0,
    totalBytesStored := 0, fileLimitIsReached := false }

theorem snprintfAppend_currBytePos (ctx : LoggerContext) (s : List Char) :
    (snprintfAppend ctx s).currBytePos = ctx.currBytePos + (s.length : Int) := rfl

theorem snprintfAppend_totalBytesStored (ctx : LoggerContext) (s : List Char) :
    (snprintfAppend ctx s).totalBytesStored = ctx.totalBytesStored + (s.length : Int) := rfl

theorem snprintfAppend_maxBufferByteSize (ctx : LoggerContext) (s : List Char) :
    (snprintfAppend ctx s).maxBufferByteSize = ctx.maxBufferByteSize := rfl

theorem snprintfAppend_maxFileSize (ctx : LoggerContext) (s : List Char) :
    (snprintfAppend ctx s).maxFileSize = ctx.maxFileSize := rfl

theorem snprintfAppend_logLevel (ctx : LoggerContext) (s : List Char) :
    (snprintfAppend ctx s).logLevel = ctx.logLevel := rfl

theorem snprintfAppend_fileLimitIsReached (ctx : LoggerContext) (s : List Char) :
    (snprintfAppend ctx s).fileLimitIsReached = ctx.fileLimitIsReached := rfl

/-- The end-marker flush never changes the context. -/
theorem errMsgFlush_ctx (env : FsEnv) (ctx : LoggerContext) (w : World) :
    (TextLogger_FlushErrMsgToFileStream env ctx w).ctx = ctx := by
  unfold TextLogger_FlushErrMsgToFileStream
  dsimp only
  repeat' split
  all_goals rfl

/-- A flush never changes the configuration fields of the context. -/
theorem flush_config (env : FsEnv) (ctx : LoggerContext) (w : World) :
    (TextLogger_FlushTextToFileStream env ctx w).ctx.maxBufferByteSize = ctx.maxBufferByteSize ∧
    (TextLogger_FlushTextToFileStream env ctx w).ctx.maxFileSize = ctx.maxFileSize ∧
    (TextLogger_FlushTextToFileStream env ctx w).ctx.logLevel = ctx.logLevel := by
  unfold TextLogger_FlushTextToFileStream
  dsimp only
  repeat' split
  all_goals simp_all [errMsgFlush_ctx]

/-- A flush never changes totalBytesStored. -/
theorem flush_totalBytesStored (env : FsEnv) (ctx : LoggerContext) (w : World) :
    (TextLogger_FlushTextToFileStream env ctx w).ctx.totalBytesStored = ctx.totalBytesStored := by
  unfold TextLogger_FlushTextToFileStream
  dsimp only
  repeat' split
  all_goals simp_all [errMsgFlush_ctx]

/-- After a flush, currBytePos is either untouched or reset to zero. -/
theorem flush_currBytePos (env : FsEnv) (ctx : LoggerContext) (w : World) :
    (TextLogger_FlushTextToFileStream env ctx w).ctx.currBytePos = ctx.currBytePos ∨
    (TextLogger_FlushTextToFileStream env ctx w).ctx.currBytePos = 0 := by
  unfold TextLogger_FlushTextToFileStream
  dsimp only
  repeat' split
  all_goals simp_all [errMsgFlush_ctx]

/-- A successful flush leaves currBytePos at zero. -/
theorem flush_success_currBytePos (env : FsEnv) (ctx : LoggerContext) (w : World) :
    (TextLogger_FlushTextToFileStream env ctx w).status = TEXTLOGGER_SUCCESS →
    (TextLogger_FlushTextToFileStream env ctx w).ctx.currBytePos = 0 := by
  unfold TextLogger_FlushTextToFileStream
  dsimp only
  repeat' split
  all_goals intro h
  all_goals simp_all [errMsgFlush_ctx]

/-- Claim C5: for every context state and every len_next, the
flush-decision predicate returns true if and only if
file_budget_effective - total_written ≤ len_next or
buffer_capacity - buffer_used ≤ len_next. -/
theorem claim_C5_flush_decision (ctx : LoggerContext) (lenNext : Int) :
    TextLogger_FlushBufferIsNeeded ctx lenNext = true ↔
      ctx.maxFileSize - ctx.totalBytesStored ≤ lenNext ∨
      ctx.maxBufferByteSize - ctx.currBytePos ≤ lenNext := by
  unfold TextLogger_FlushBufferIsNeeded
  split
  all_goals simp_all

/-- Claim C8: for every per-severity log call on a non-null context with
non-null text, the record is admitted (the call delegates to the internal
write-record routine) if and only if the severity ordinal is at most the
context logLevel; when the ordinal is greater the record is dropped and
the call returns success with context, file and output untouched. -/
theorem claim_C8_admission_filter (ts : List Char) (e1 e2 : FsEnv)
    (ctx : LoggerContext) (w : World) (text : List Char) :
    (LOG_LEVEL_ERROR ≤ ctx.logLevel →
      TextLogger_LogError ts e1 e2 ctx w text =
        TextLogger_WriteToBuffer ts e1 e2 ctx w text
          ((text.length : Int) + LOG_EXTRA_STR_LENGTH) LOG_LEVEL_ERROR) ∧
    (ctx.logLevel < LOG_LEVEL_ERROR →
      TextLogger_LogError ts e1 e2 ctx w text =
        { status := TEXTLOGGER_SUCCESS, ctx := ctx, world := w, chunks := [] }) ∧
    (LOG_LEVEL_WARN ≤ ctx.logLevel →
      TextLogger_LogWarn ts e1 e2 ctx w text =
        TextLogger_WriteToBuffer ts e1 e2 ctx w text
          ((text.length : Int) + LOG_EXTRA_STR_LENGTH) LOG_LEVEL_WARN) ∧
    (ctx.logLevel < LOG_LEVEL_WARN →
      TextLogger_LogWarn ts e1 e2 ctx w text =
        { status := TEXTLOGGER_SUCCESS, ctx := ctx, world := w, chunks := [] }) ∧
    (LOG_LEVEL_INFO ≤ ctx.logLevel →
      TextLogger_LogInfo ts e1 e2 ctx w text =
        TextLogger_WriteToBuffer ts e1 e2 ctx w text
          ((text.length : Int) + LOG_EXTRA_STR_LENGTH) LOG_LEVEL_INFO) ∧
    (ctx.logLevel < LOG_LEVEL_INFO →
      TextLogger_LogInfo ts e1 e2 ctx w text =
        { status := TEXTLOGGER_SUCCESS, ctx := ctx, world := w, chunks := [] }) ∧
    (LOG_LEVEL_DEBUG ≤ ctx.logLevel →
      TextLogger_LogDebug ts e1 e2 ctx w text =
        TextLogger_WriteToBuffer ts e1 e2 ctx w text
          ((text.length : Int) + LOG_EXTRA_STR_LENGTH) LOG_LEVEL_DEBUG) ∧
    (ctx.logLevel < LOG_LEVEL_DEBUG →
      TextLogger_LogDebug ts e1 e2 ctx w text =
        { status := TEXTLOGGER_SUCCESS, ctx := ctx, world := w, chunks := [] }) ∧
    (LOG_LEVEL_VERBOSE ≤ ctx.logLevel →
      TextLogger_LogVerbose ts e1 e2 ctx w text =
        TextLogger_WriteToBuffer ts e1 e2 ctx w text
          ((text.length : Int) + LOG_EXTRA_STR_LENGTH) LOG_LEVEL_VERBOSE) ∧
    (ctx.logLevel < LOG_LEVEL_VERBOSE →
      TextLogger_LogVerbose ts e1 e2 ctx w text =
        { status := TEXTLOGGER_SUCCESS, ctx := ctx, world := w, chunks := [] }) := by
  refine ⟨fun h => ?_, fun h => ?_, fun h => ?_, fun h => ?_, fun h => ?_,
    fun h => ?_, fun h => ?_, fun h => ?_, fun h => ?_, fun h => ?_⟩
  · rw [TextLogger_LogError, if_pos h]
  · rw [TextLogger_LogError, if_neg (not_le.mpr h)]
  · rw [TextLogger_LogWarn, if_pos h]
  · rw [TextLogger_LogWarn, if_neg (not_le.mpr h)]
  · rw [TextLogger_LogInfo, if_pos h]
  · rw [TextLogger_LogInfo, if_neg (not_le.mpr h)]
  · rw [TextLogger_LogDebug, if_pos h]
  · rw [TextLogger_LogDebug, if_neg (not_le.mpr h)]
  · rw [TextLogger_LogVerbose, if_pos h]
  · rw [TextLogger_LogVerbose, if_neg (not_le.mpr h)]

/-- Claim C8 witness: on a level-INFO context, an Error record is admitted
and delegates to the write-record routine, while a Debug record is dropped
with success and no state change. -/
theorem claim_C8_witness :
    (LOG_LEVEL_ERROR ≤ ctxInfoLevel.logLevel ∧
      TextLogger_LogError tsA envOk envOk ctxInfoLevel w0 "e".toList =
        TextLogger_WriteToBuffer tsA envOk envOk ctxInfoLevel w0 "e".toList
          (("e".toList.length : Int) + LOG_EXTRA_STR_LENGTH) LOG_LEVEL_ERROR) ∧
    (ctxInfoLevel.logLevel < LOG_LEVEL_DEBUG ∧
      TextLogger_LogDebug tsA envOk envOk ctxInfoLevel w0 "d".toList =
        { status := TEXTLOGGER_SUCCESS, ctx := ctxInfoLevel, world := w0, chunks := [] }) :=
  ⟨⟨by decide,
    (claim_C8_admission_filter tsA envOk envOk ctxInfoLevel w0 "e".toList).1 (by decide)⟩,
   ⟨by decide,
    (claim_C8_admission_filter tsA envOk envOk ctxInfoLevel w0 "d".toList).2.2.2.2.2.2.2.1
      (by decide)⟩⟩

/-- Claim C10: create performs no validation of buffer_capacity: for every
non-positive capacity, with non-null strings and a budget exceeding the
end-marker length plus one, create returns a handle whose scratch-buffer
capacity field is that non-positive value (allocation modelled as
succeeding). -/
theorem claim_C10_create_no_capacity_validation (fp em : List Char)
    (logLevel cap budget : Int) (hcap : cap ≤ 0)
    (hbudget : (em.length : Int) + 1 < budget) :
    ∃ ctx, TextLogger_Create (some fp) (some em) logLevel cap budget = some ctx ∧
      ctx.maxBufferByteSize = cap := by
  have h : ¬ (budget - ((em.length : Int) + 1) ≤ 0) := by omega
  simp only [TextLogger_Create]
  rw [if_neg h]
  exact ⟨_, rfl, rfl⟩

/-- Claim C10 witness: create with buffer capacity 0 and budget 10 against
the one-byte end marker X returns a handle with capacity field 0. -/
theorem claim_C10_witness :
    (0 : Int) ≤ 0 ∧ (("X".toList.length : Int) + 1 < 10) ∧
    ∃ ctx, TextLogger_Create (some ['f']) (some "X".toList) 5 0 10 = some ctx ∧
      ctx.maxBufferByteSize = 0 :=
  ⟨by decide, by decide,
   claim_C10_create_no_capacity_validation ['f'] "X".toList 5 0 10 (by decide) (by decide)⟩

/-- Claim C9 counterexample: create accepts a zero-byte file path and a
zero-byte end marker: both calls return a non-null handle, where the claim
requires a null handle for absent or zero-byte strings. -/
theorem claim_C9_counterexample :
    (TextLogger_Create (some []) (some ['X']) 5 1024 2048).isSome = true ∧
    (TextLogger_Create (some ['f']) (some []) 5 1024 2048).isSome = true := by
  decide

/-- Claim C9 (amended): create returns a null handle exactly when file_path
or end_marker is an absent (NULL) reference or the raw budget minus the
end-marker length plus one is not positive; zero-byte strings are not
rejected; otherwise (allocation modelled as succeeding) the handle has the
ledger zeroed and the limit flag false. -/
theorem claim_C9_create_validation (fp em : Option (List Char))
    (logLevel cap budget : Int) :
    (TextLogger_Create fp em logLevel cap budget = none ↔
      fp = none ∨ em = none ∨ ∃ l, em = some l ∧ budget ≤ (l.length : Int) + 1) ∧
    (∀ ctx, TextLogger_Create fp em logLevel cap budget = some ctx →
      ctx.currBytePos = 0 ∧ ctx.totalBytesStored = 0 ∧
      ctx.fileLimitIsReached = false) := by
  cases fp with
  | none => simp [TextLogger_Create]
  | some fp =>
    cases em with
    | none => simp [TextLogger_Create]
    | some em =>
      by_cases h : budget - ((em.length : Int) + 1) ≤ 0
      · constructor
        · simp only [TextLogger_Create, if_pos h]
          simp only [true_iff]
          refine Or.inr (Or.inr ⟨em, rfl, by omega⟩)
        · intro ctx hctx
          simp only [TextLogger_Create, if_pos h] at hctx
          exact absurd hctx (by simp)
      · constructor
        · constructor
          · intro hcontra
            simp only [TextLogger_Create, if_neg h] at hcontra
            exact absurd hcontra (by simp)
          · rintro (h1 | h1 | ⟨l, hl, hb⟩)
            · exact absurd h1 (by simp)
            · exact absurd h1 (by simp)
            · cases hl
              exact absurd hb (by omega)
        · intro ctx hctx
          simp only [TextLogger_Create, if_neg h, Option.some.injEq] at hctx
          subst hctx
          exact ⟨rfl, rfl, rfl⟩

/-- Claim C9 witness: create with path f, end marker X and budget 100
returns the concrete handle ctx98, whose ledger is zeroed and whose limit
flag is false. -/
theorem claim_C9_witness :
    TextLogger_Create (some ['f']) (some ['X']) 5 8 100 = some ctx98 ∧
    (ctx98.currBytePos = 0 ∧ ctx98.totalBytesStored = 0 ∧
      ctx98.fileLimitIsReached = false) :=
  ⟨by decide,
   (claim_C9_create_validation (some ['f']) (some ['X']) 5 8 100).2 ctx98 (by decide)⟩

/-- The flush-decision predicate unfolded to its two-sided condition. -/
theorem flushNeeded_iff (ctx : LoggerContext) (len : Int) :
    TextLogger_FlushBufferIsNeeded ctx len = true ↔
      ctx.maxFileSize - ctx.totalBytesStored ≤ len ∨
      ctx.maxBufferByteSize - ctx.currBytePos ≤ len := by
  unfold TextLogger_FlushBufferIsNeeded
  split
  all_goals simp_all

/-- A flush on a context whose limit flag is latched and whose accounting
has reached the budget is a pure no-op returning insufficient space. -/
theorem flush_limit_latched (env : FsEnv) (ctx : LoggerContext) (w : World)
    (hm : ctx.fileLimitIsReached = true)
    (ht : ctx.maxFileSize ≤ ctx.totalBytesStored) :
    TextLogger_FlushTextToFileStream env ctx w =
      { status := TEXTLOGGER_ERR_INSUFFICIENT_FILE_SPACE, ctx := ctx, world := w,
        chunks := [] } := by
  unfold TextLogger_FlushTextToFileStream
  rw [if_pos ht, hm]
  rw [if_neg (by decide)]

/-- A timestamp call on a latched, budget-reached context is a pure no-op
returning insufficient space. -/
theorem logTimeStamp_limit_latched (ts : List Char) (env : FsEnv)
    (ctx : LoggerContext) (w : World)
    (hm : ctx.fileLimitIsReached = true)
    (ht : ctx.maxFileSize ≤ ctx.totalBytesStored) :
    TextLogger_LogTimeStamp ts env ctx w =
      { status := TEXTLOGGER_ERR_INSUFFICIENT_FILE_SPACE, ctx := ctx, world := w,
        chunks := [] } := by
  have hpred : TextLogger_FlushBufferIsNeeded ctx (ts.length : Int) = true := by
    rw [flushNeeded_iff]
    left
    omega
  unfold TextLogger_LogTimeStamp
  rw [hpred]
  simp only [if_true, flush_limit_latched env ctx w hm ht]
  simp

/-- A write-record call on a latched, budget-reached context is a pure
no-op returning insufficient space. -/
theorem writeToBuffer_limit_latched (ts : List Char) (e1 e2 : FsEnv)
    (ctx : LoggerContext) (w : World) (text : List Char) (logLength logLevel : Int)
    (hm : ctx.fileLimitIsReached = true)
    (ht : ctx.maxFileSize ≤ ctx.totalBytesStored) :
    TextLogger_WriteToBuffer ts e1 e2 ctx w text logLength logLevel =
      { status := TEXTLOGGER_ERR_INSUFFICIENT_FILE_SPACE, ctx := ctx, world := w,
        chunks := [] } := by
  unfold TextLogger_WriteToBuffer
  rw [logTimeStamp_limit_latched ts e1 ctx w hm ht]
  simp

/-- Claim C2 (amended): once the limit flag has latched AND total_written
has reached the effective file budget, every subsequent flush, destroy,
timestamp and admitted log call returns insufficient space without
mutating buffer_used or total_written and without appending to the file;
a filtered log call still returns success, likewise without mutation.
The latch alone does not imply this: the overshoot branch latches the flag
while total_written is still below the budget, after which calls can
succeed again (see the counterexample). -/
theorem claim_C2_insufficient_after_limit (ts text : List Char)
    (env e1 e2 : FsEnv) (ctx : LoggerContext) (w : World)
    (hm : ctx.fileLimitIsReached = true)
    (ht : ctx.maxFileSize ≤ ctx.totalBytesStored) :
    TextLogger_FlushTextToFileStream env ctx w =
      { status := TEXTLOGGER_ERR_INSUFFICIENT_FILE_SPACE, ctx := ctx, world := w,
        chunks := [] } ∧
    TextLogger_Destroy env ctx w =
      { status := TEXTLOGGER_ERR_INSUFFICIENT_FILE_SPACE, ctx := ctx, world := w,
        chunks := [] } ∧
    TextLogger_LogTimeStamp ts env ctx w =
      { status := TEXTLOGGER_ERR_INSUFFICIENT_FILE_SPACE, ctx := ctx, world := w,
        chunks := [] } ∧
    TextLogger_LogError ts e1 e2 ctx w text =
      { status := if LOG_LEVEL_ERROR ≤ ctx.logLevel then
          TEXTLOGGER_ERR_INSUFFICIENT_FILE_SPACE else TEXTLOGGER_SUCCESS,
        ctx := ctx, world := w, chunks := [] } ∧
    TextLogger_LogWarn ts e1 e2 ctx w text =
      { status := if LOG_LEVEL_WARN ≤ ctx.logLevel then
          TEXTLOGGER_ERR_INSUFFICIENT_FILE_SPACE else TEXTLOGGER_SUCCESS,
        ctx := ctx, world := w, chunks := [] } ∧
    TextLogger_LogInfo ts e1 e2 ctx w text =
      { status := if LOG_LEVEL_INFO ≤ ctx.logLevel then
          TEXTLOGGER_ERR_INSUFFICIENT_FILE_SPACE else TEXTLOGGER_SUCCESS,
        ctx := ctx, world := w, chunks := [] } ∧
    TextLogger_LogDebug ts e1 e2 ctx w text =
      { status := if LOG_LEVEL_DEBUG ≤ ctx.logLevel then
          TEXTLOGGER_ERR_INSUFFICIENT_FILE_SPACE else TEXTLOGGER_SUCCESS,
        ctx := ctx, world := w, chunks := [] } ∧
    TextLogger_LogVerbose ts e1 e2 ctx w text =
      { status := if LOG_LEVEL_VERBOSE ≤ ctx.logLevel then
          TEXTLOGGER_ERR_INSUFFICIENT_FILE_SPACE else TEXTLOGGER_SUCCESS,
        ctx := ctx, world := w, chunks := [] } := by
  refine ⟨flush_limit_latched env ctx w hm ht, flush_limit_latched env ctx w hm ht,
    logTimeStamp_limit_latched ts env ctx w hm ht, ?_, ?_, ?_, ?_, ?_⟩
  · unfold TextLogger_LogError
    split
    all_goals simp_all [writeToBuffer_limit_latched ts e1 e2 ctx w text _ _ hm ht]
  · unfold TextLogger_LogWarn
    split
    all_goals simp_all [writeToBuffer_limit_latched ts e1 e2 ctx w text _ _ hm ht]
  · unfold TextLogger_LogInfo
    split
    all_goals simp_all [writeToBuffer_limit_latched ts e1 e2 ctx w text _ _ hm ht]
  · unfold TextLogger_LogDebug
    split
    all_goals simp_all [writeToBuffer_limit_latched ts e1 e2 ctx w text _ _ hm ht]
  · unfold TextLogger_LogVerbose
    split
    all_goals simp_all [writeToBuffer_limit_latched ts e1 e2 ctx w text _ _ hm ht]

/-- Claim C2 witness: on the latched budget-reached context ctxLimit,
a flush is the insufficient-space no-op. -/
theorem claim_C2_witness :
    ctxLimit.fileLimitIsReached = true ∧
    ctxLimit.maxFileSize ≤ ctxLimit.totalBytesStored ∧
    TextLogger_FlushTextToFileStream envOk ctxLimit w0 =
      { status := TEXTLOGGER_ERR_INSUFFICIENT_FILE_SPACE, ctx := ctxLimit,
        world := w0, chunks := [] } :=
  ⟨rfl, by decide,
   (claim_C2_insufficient_after_limit tsA ['z'] envOk envOk envOk ctxLimit w0
      rfl (by decide)).1⟩

set_option maxRecDepth 4000 in
/-- Claim C2 counterexample: on ctxS5 with 120 bytes already on disk, one
200-byte record is buffered (runA1), the next flush takes the overshoot
branch and latches the limit flag returning insufficient space (runA2) —
yet the very next flush returns SUCCESS, and a further Verbose log call
returns SUCCESS and advances totalBytesStored from 200 to 240, refuting
that the latch alone forces insufficient-space, mutation-free behaviour. -/
theorem claim_C2_counterexample :
    runA2.ctx.fileLimitIsReached = true ∧
    runA2.status = TEXTLOGGER_ERR_INSUFFICIENT_FILE_SPACE ∧
    runA3.status = TEXTLOGGER_SUCCESS ∧
    (TextLogger_LogVerbose tsA envOk envOk runA2.ctx runA2.world
        (List.replicate 10 'y')).status = TEXTLOGGER_SUCCESS ∧
    runA2.ctx.totalBytesStored = 200 ∧
    (TextLogger_LogVerbose tsA envOk envOk runA2.ctx runA2.world
        (List.replicate 10 'y')).ctx.totalBytesStored = 240 := by
  decide

/-- Claim C3 (amended): in the overshoot-check branch (buffer non-empty,
total_written below budget, open succeeds, current length plus buffer_used
exceeds the budget) flush latches the limit flag, closes the file without
writing, returns insufficient space — and RESETS buffer_used to zero,
discarding the pending bytes rather than leaving buffer_used unchanged. -/
theorem claim_C3_overshoot_discards_buffer (env : FsEnv) (ctx : LoggerContext)
    (w : World)
    (h1 : ctx.totalBytesStored < ctx.maxFileSize)
    (h2 : ctx.currBytePos ≠ 0)
    (h3 : env.openOk = true)
    (h4 : ctx.maxFileSize < ctx.currBytePos + (w.file.length : Int)) :
    TextLogger_FlushTextToFileStream env ctx w =
      { status := TEXTLOGGER_ERR_INSUFFICIENT_FILE_SPACE
        ctx := { ctx with fileLimitIsReached := true, currBytePos := 0, pTextBuffer := [] }
        world := w
        chunks := [] } := by
  unfold TextLogger_FlushTextToFileStream
  rw [if_neg (by omega), if_neg h2, if_neg (by simp [h3])]
  dsimp only
  rw [if_pos (by omega)]

set_option maxRecDepth 4000 in
/-- Claim C3 witness: flushing the buffered 200-byte record of runA1
against the 120-byte file takes the overshoot branch: latch, no write,
insufficient space, buffer_used reset to zero. -/
theorem claim_C3_witness :
    runA1.ctx.totalBytesStored < runA1.ctx.maxFileSize ∧
    runA1.ctx.currBytePos ≠ 0 ∧
    envOk.openOk = true ∧
    runA1.ctx.maxFileSize < runA1.ctx.currBytePos + (runA1.world.file.length : Int) ∧
    TextLogger_FlushTextToFileStream envOk runA1.ctx runA1.world =
      { status := TEXTLOGGER_ERR_INSUFFICIENT_FILE_SPACE
        ctx := { runA1.ctx with fileLimitIsReached := true, currBytePos := 0, pTextBuffer := [] }
        world := runA1.world
        chunks := [] } :=
  ⟨by decide, by decide, rfl, by decide,
   claim_C3_overshoot_discards_buffer envOk runA1.ctx runA1.world
     (by decide) (by decide) rfl (by decide)⟩

set_option maxRecDepth 4000 in
/-- Claim C3 counterexample: in the overshoot branch of runA2 the scratch
cursor is NOT left unchanged: buffer_used goes from 200 before the flush
to 0 after it (the pending bytes are discarded), refuting that buffer_used
is unchanged by that flush call. -/
theorem claim_C3_counterexample :
    runA1.ctx.currBytePos = 200 ∧
    runA2.status = TEXTLOGGER_ERR_INSUFFICIENT_FILE_SPACE ∧
    runA2.world = runA1.world ∧
    runA2.chunks = [] ∧
    runA2.ctx.currBytePos = 0 := by
  decide

/-- The limit flag after a flush is either untouched or latched true. -/
theorem flush_fileLimit_cases (env : FsEnv) (ctx : LoggerContext) (w : World) :
    (TextLogger_FlushTextToFileStream env ctx w).ctx.fileLimitIsReached =
      ctx.fileLimitIsReached ∨
    (TextLogger_FlushTextToFileStream env ctx w).ctx.fileLimitIsReached = true := by
  unfold TextLogger_FlushTextToFileStream
  dsimp only
  repeat' split
  all_goals simp_all [errMsgFlush_ctx]

/-- A flush preserves the buffer bound invariant. -/
theorem flush_BufferInv (env : FsEnv) (ctx : LoggerContext) (w : World)
    (h : BufferInv ctx) : BufferInv (TextLogger_FlushTextToFileStream env ctx w).ctx := by
  obtain ⟨ha, hb⟩ := h
  obtain ⟨hc, -, -⟩ := flush_config env ctx w
  obtain h1 | h1 := flush_currBytePos env ctx w
  all_goals exact ⟨by omega, by omega⟩

/-- A timestamp call preserves the buffer capacity field. -/
theorem logTimeStamp_maxBufferByteSize (ts : List Char) (env : FsEnv)
    (ctx : LoggerContext) (w : World) :
    (TextLogger_LogTimeStamp ts env ctx w).ctx.maxBufferByteSize =
      ctx.maxBufferByteSize := by
  unfold TextLogger_LogTimeStamp
  dsimp only
  repeat' split
  all_goals
    simp [snprintfAppend_maxBufferByteSize, (flush_config env ctx w).1]

/-- A timestamp call preserves the buffer bound invariant whenever the
formatted timestamp is shorter than the buffer capacity. -/
theorem logTimeStamp_BufferInv (ts : List Char) (env : FsEnv)
    (ctx : LoggerContext) (w : World) (h : BufferInv ctx)
    (hts : (ts.length : Int) < ctx.maxBufferByteSize) :
    BufferInv (TextLogger_LogTimeStamp ts env ctx w).ctx := by
  unfold TextLogger_LogTimeStamp
  dsimp only
  split
  · split
    · exact flush_BufferInv env ctx w h
    · rename_i hsucc
      have hs : (TextLogger_FlushTextToFileStream env ctx w).status =
          TEXTLOGGER_SUCCESS := by
        by_contra hcon
        exact hsucc hcon
      have hp := flush_success_currBytePos env ctx w hs
      obtain ⟨hc, -, -⟩ := flush_config env ctx w
      refine ⟨?_, ?_⟩
      · rw [snprintfAppend_currBytePos, hp]
        omega
      · rw [snprintfAppend_currBytePos, snprintfAppend_maxBufferByteSize, hp, hc]
        omega
  · rename_i hpred
    have hside : ¬ (ctx.maxBufferByteSize - ctx.currBytePos ≤ (ts.length : Int)) := by
      intro hcon
      exact hpred ((flushNeeded_iff ctx (ts.length : Int)).mpr (Or.inr hcon))
    obtain ⟨ha, hb⟩ := h
    refine ⟨?_, ?_⟩
    · rw [snprintfAppend_currBytePos]
      omega
    · rw [snprintfAppend_currBytePos, snprintfAppend_maxBufferByteSize]
      omega

/-- The severity tag is at most five bytes for every ordinal. -/
theorem logMsgTag_length_le (k : Int) : (logMsgTag k).length ≤ 5 := by
  unfold logMsgTag
  repeat' split
  all_goals simp

/-- The full tagged line is at most six bytes longer than the payload. -/
theorem tagLine_length_le (k : Int) (text : List Char) :
    (((logMsgTag k ++ text ++ ['\n']).length : Int)) ≤ (text.length : Int) + 6 := by
  have h := logMsgTag_length_le k
  simp only [List.length_append, List.length_cons, List.length_nil]
  push_cast
  omega

/-- The write-record routine preserves the buffer bound invariant when the
timestamp and the length bound both fit below the buffer capacity. -/
theorem writeToBuffer_BufferInv (ts : List Char) (e1 e2 : FsEnv)
    (ctx : LoggerContext) (w : World) (text : List Char)
    (logLength logLevel : Int) (h : BufferInv ctx)
    (hts : (ts.length : Int) < ctx.maxBufferByteSize)
    (hslen : (((logMsgTag logLevel ++ text ++ ['\n']).length : Int)) ≤ logLength)
    (hlog : 0 ≤ logLength) (hcap : logLength < ctx.maxBufferByteSize) :
    BufferInv (TextLogger_WriteToBuffer ts e1 e2 ctx w text logLength logLevel).ctx := by
  have hinv1 := logTimeStamp_BufferInv ts e1 ctx w h hts
  have hcap1 := logTimeStamp_maxBufferByteSize ts e1 ctx w
  unfold TextLogger_WriteToBuffer
  dsimp only
  split
  · exact hinv1
  · split
    · split
      · exact flush_BufferInv e2 _ _ hinv1
      · rename_i hsucc
        have hs : (TextLogger_FlushTextToFileStream e2
            (TextLogger_LogTimeStamp ts e1 ctx w).ctx
            (TextLogger_LogTimeStamp ts e1 ctx w).world).status =
            TEXTLOGGER_SUCCESS := by
          by_contra hcon
          exact hsucc hcon
        have hp := flush_success_currBytePos e2 _ _ hs
        obtain ⟨hc, -, -⟩ := flush_config e2 (TextLogger_LogTimeStamp ts e1 ctx w).ctx
          (TextLogger_LogTimeStamp ts e1 ctx w).world
        refine ⟨?_, ?_⟩
        · rw [snprintfAppend_currBytePos, hp]
          omega
        · rw [snprintfAppend_currBytePos, snprintfAppend_maxBufferByteSize, hp, hc, hcap1]
          omega
    · rename_i hpred
      have hside : ¬ ((TextLogger_LogTimeStamp ts e1 ctx w).ctx.maxBufferByteSize -
          (TextLogger_LogTimeStamp ts e1 ctx w).ctx.currBytePos ≤ logLength) := by
        intro hcon
        exact hpred ((flushNeeded_iff _ logLength).mpr (Or.inr hcon))
      obtain ⟨ha, hb⟩ := hinv1
      refine ⟨?_, ?_⟩
      · rw [snprintfAppend_currBytePos]
        omega
      · rw [snprintfAppend_currBytePos, snprintfAppend_maxBufferByteSize]
        omega

/-- Claim C1 (amended): the ledger bound 0 ≤ buffer_used ≤ buffer_capacity
is preserved by every public operation PROVIDED each formatted string is
strictly shorter than the buffer capacity (the timestamp, and the payload
plus its six bytes of tag and newline). Without that proviso the bound
fails: the formatter is length-limited in what it stores, but the code
advances buffer_used by the untruncated length snprintf returns (see the
counterexample). -/
theorem claim_C1_buffer_bounds (ts text : List Char) (env e1 e2 : FsEnv)
    (ctx : LoggerContext) (w : World) (h : BufferInv ctx)
    (hts : (ts.length : Int) < ctx.maxBufferByteSize)
    (htext : (text.length : Int) + 6 < ctx.maxBufferByteSize) :
    BufferInv (TextLogger_FlushTextToFileStream env ctx w).ctx ∧
    BufferInv (TextLogger_Destroy env ctx w).ctx ∧
    BufferInv (TextLogger_LogTimeStamp ts env ctx w).ctx ∧
    BufferInv (TextLogger_LogError ts e1 e2 ctx w text).ctx ∧
    BufferInv (TextLogger_LogWarn ts e1 e2 ctx w text).ctx ∧
    BufferInv (TextLogger_LogInfo ts e1 e2 ctx w text).ctx ∧
    BufferInv (TextLogger_LogDebug ts e1 e2 ctx w text).ctx ∧
    BufferInv (TextLogger_LogVerbose ts e1 e2 ctx w text).ctx := by
  have hE := tagLine_length_le LOG_LEVEL_ERROR text
  have hW := tagLine_length_le LOG_LEVEL_WARN text
  have hI := tagLine_length_le LOG_LEVEL_INFO text
  have hD := tagLine_length_le LOG_LEVEL_DEBUG text
  have hV := tagLine_length_le LOG_LEVEL_VERBOSE text
  have h6 : LOG_EXTRA_STR_LENGTH = 6 := rfl
  refine ⟨flush_BufferInv env ctx w h, flush_BufferInv env ctx w h,
    logTimeStamp_BufferInv ts env ctx w h hts, ?_, ?_, ?_, ?_, ?_⟩
  · unfold TextLogger_LogError
    split
    · exact writeToBuffer_BufferInv ts e1 e2 ctx w text _ _ h hts (by omega) (by omega)
        (by omega)
    · exact h
  · unfold TextLogger_LogWarn
    split
    · exact writeToBuffer_BufferInv ts e1 e2 ctx w text _ _ h hts (by omega) (by omega)
        (by omega)
    · exact h
  · unfold TextLogger_LogInfo
    split
    · exact writeToBuffer_BufferInv ts e1 e2 ctx w text _ _ h hts (by omega) (by omega)
        (by omega)
    · exact h
  · unfold TextLogger_LogDebug
    split
    · exact writeToBuffer_BufferInv ts e1 e2 ctx w text _ _ h hts (by omega) (by omega)
        (by omega)
    · exact h
  · unfold TextLogger_LogVerbose
    split
    · exact writeToBuffer_BufferInv ts e1 e2 ctx w text _ _ h hts (by omega) (by omega)
        (by omega)
    · exact h

/-- Claim C1 witness: on the 1024-byte-buffer context, the bound holds
after each operation for a 24-byte timestamp and the payload hi. -/
theorem claim_C1_witness :
    BufferInv ctxBasic ∧
    (tsA.length : Int) < ctxBasic.maxBufferByteSize ∧
    (("hi".toList.length : Int) + 6 < ctxBasic.maxBufferByteSize) ∧
    (BufferInv (TextLogger_FlushTextToFileStream envOk ctxBasic w0).ctx ∧
     BufferInv (TextLogger_Destroy envOk ctxBasic w0).ctx ∧
     BufferInv (TextLogger_LogTimeStamp tsA envOk ctxBasic w0).ctx ∧
     BufferInv (TextLogger_LogError tsA envOk envOk ctxBasic w0 "hi".toList).ctx ∧
     BufferInv (TextLogger_LogWarn tsA envOk envOk ctxBasic w0 "hi".toList).ctx ∧
     BufferInv (TextLogger_LogInfo tsA envOk envOk ctxBasic w0 "hi".toList).ctx ∧
     BufferInv (TextLogger_LogDebug tsA envOk envOk ctxBasic w0 "hi".toList).ctx ∧
     BufferInv (TextLogger_LogVerbose tsA envOk envOk ctxBasic w0 "hi".toList).ctx) :=
  ⟨⟨by decide, by decide⟩, by decide, by decide,
   claim_C1_buffer_bounds tsA "hi".toList envOk envOk envOk ctxBasic w0
     ⟨by decide, by decide⟩ (by decide) (by decide)⟩

set_option maxRecDepth 4000 in
/-- Claim C1 counterexample: on a context with buffer capacity 10 (which
create accepts), a single timestamp call drives buffer_used to 24, past
the capacity: snprintf stores only what fits but returns the untruncated
length, and the code adds that return value to buffer_used, refuting
0 ≤ buffer_used ≤ buffer_capacity after every operation. -/
theorem claim_C1_counterexample :
    TextLogger_Create (some ['f']) (some ['X']) 5 10 2048 = some ctxSmallBuf ∧
    (TextLogger_LogTimeStamp tsA envOk ctxSmallBuf w0).status = TEXTLOGGER_SUCCESS ∧
    ctxSmallBuf.maxBufferByteSize = 10 ∧
    (TextLogger_LogTimeStamp tsA envOk ctxSmallBuf w0).ctx.currBytePos = 24 := by
  decide

/-- A timestamp call whose flush predicate does not fire is a pure buffer
append. -/
theorem logTimeStamp_no_flush (ts : List Char) (env : FsEnv)
    (ctx : LoggerContext) (w : World)
    (h1 : TextLogger_FlushBufferIsNeeded ctx (ts.length : Int) = false) :
    TextLogger_LogTimeStamp ts env ctx w =
      { status := TEXTLOGGER_SUCCESS, ctx := snprintfAppend ctx ts, world := w,
        chunks := [] } := by
  unfold TextLogger_LogTimeStamp
  rw [h1]
  simp

/-- A write-record call neither of whose flush predicates fires is a pure
double buffer append: timestamp, then tag, payload and newline. -/
theorem writeToBuffer_no_flush (ts : List Char) (e1 e2 : FsEnv)
    (ctx : LoggerContext) (w : World) (text : List Char)
    (logLength logLevel : Int)
    (h1 : TextLogger_FlushBufferIsNeeded ctx (ts.length : Int) = false)
    (h2 : TextLogger_FlushBufferIsNeeded (snprintfAppend ctx ts) logLength = false) :
    TextLogger_WriteToBuffer ts e1 e2 ctx w text logLength logLevel =
      { status := TEXTLOGGER_SUCCESS
        ctx := snprintfAppend (snprintfAppend ctx ts)
          (logMsgTag logLevel ++ text ++ ['\n'])
        world := w
        chunks := [] } := by
  unfold TextLogger_WriteToBuffer
  rw [logTimeStamp_no_flush ts e1 ctx w h1]
  simp [h2]

/-- Claim C4 (amended): total_written counts bytes ACCEPTED INTO THE
SCRATCH BUFFER, not bytes committed to the file: a flush never changes
total_written (commitment advances nothing), while a flush-free timestamp
or admitted log call advances total_written by the formatted length even
though no byte reaches the file during the call; bytes later discarded by
the overshoot branch stay counted. The end-marker is never counted. -/
theorem claim_C4_total_counts_buffered_bytes (ts text : List Char)
    (env e1 e2 : FsEnv) (ctx : LoggerContext) (w : World) :
    ((TextLogger_FlushTextToFileStream env ctx w).ctx.totalBytesStored =
      ctx.totalBytesStored) ∧
    (TextLogger_FlushBufferIsNeeded ctx (ts.length : Int) = false →
      (TextLogger_LogTimeStamp ts env ctx w).ctx.totalBytesStored =
        ctx.totalBytesStored + (ts.length : Int) ∧
      (TextLogger_LogTimeStamp ts env ctx w).chunks = [] ∧
      (TextLogger_LogTimeStamp ts env ctx w).world = w) ∧
    (LOG_LEVEL_ERROR ≤ ctx.logLevel →
     TextLogger_FlushBufferIsNeeded ctx (ts.length : Int) = false →
     TextLogger_FlushBufferIsNeeded (snprintfAppend ctx ts)
       ((text.length : Int) + LOG_EXTRA_STR_LENGTH) = false →
      (TextLogger_LogError ts e1 e2 ctx w text).ctx.totalBytesStored =
        ctx.totalBytesStored + (ts.length : Int) + (text.length : Int) + 6 ∧
      (TextLogger_LogError ts e1 e2 ctx w text).chunks = [] ∧
      (TextLogger_LogError ts e1 e2 ctx w text).world = w) ∧
    (LOG_LEVEL_VERBOSE ≤ ctx.logLevel →
     TextLogger_FlushBufferIsNeeded ctx (ts.length : Int) = false →
     TextLogger_FlushBufferIsNeeded (snprintfAppend ctx ts)
       ((text.length : Int) + LOG_EXTRA_STR_LENGTH) = false →
      (TextLogger_LogVerbose ts e1 e2 ctx w text).ctx.totalBytesStored =
        ctx.totalBytesStored + (ts.length : Int) + (text.length : Int) + 6 ∧
      (TextLogger_LogVerbose ts e1 e2 ctx w text).chunks = [] ∧
      (TextLogger_LogVerbose ts e1 e2 ctx w text).world = w) := by
  refine ⟨flush_totalBytesStored env ctx w, fun h1 => ?_, fun hk h1 h2 => ?_,
    fun hk h1 h2 => ?_⟩
  · rw [logTimeStamp_no_flush ts env ctx w h1]
    exact ⟨rfl, rfl, rfl⟩
  · unfold TextLogger_LogError
    rw [if_pos hk, writeToBuffer_no_flush ts e1 e2 ctx w text _ _ h1 h2]
    refine ⟨?_, rfl, rfl⟩
    simp [snprintfAppend_totalBytesStored, logMsgTag, LOG_LEVEL_ERROR, LOG_LEVEL_WARN,
      LOG_LEVEL_INFO, LOG_LEVEL_DEBUG, LOG_LEVEL_VERBOSE]
    omega
  · unfold TextLogger_LogVerbose
    rw [if_pos hk, writeToBuffer_no_flush ts e1 e2 ctx w text _ _ h1 h2]
    refine ⟨?_, rfl, rfl⟩
    simp [snprintfAppend_totalBytesStored, logMsgTag, LOG_LEVEL_ERROR, LOG_LEVEL_WARN,
      LOG_LEVEL_INFO, LOG_LEVEL_DEBUG, LOG_LEVEL_VERBOSE]
    omega

/-- Claim C4 witness: on the fresh large-buffer context, an Error call
advances total_written by 24 + 5 + 6 = 35 bytes with no file traffic. -/
theorem claim_C4_witness :
    LOG_LEVEL_ERROR ≤ ctxBasic.logLevel ∧
    TextLogger_FlushBufferIsNeeded ctxBasic ((tsA.length : Int)) = false ∧
    TextLogger_FlushBufferIsNeeded (snprintfAppend ctxBasic tsA)
      (("hello".toList.length : Int) + LOG_EXTRA_STR_LENGTH) = false ∧
    ((TextLogger_LogError tsA envOk envOk ctxBasic w0 "hello".toList).ctx.totalBytesStored =
        ctxBasic.totalBytesStored + (tsA.length : Int) + ("hello".toList.length : Int) + 6 ∧
      (TextLogger_LogError tsA envOk envOk ctxBasic w0 "hello".toList).chunks = [] ∧
      (TextLogger_LogError tsA envOk envOk ctxBasic w0 "hello".toList).world = w0) :=
  ⟨by decide, by decide, by decide,
   (claim_C4_total_counts_buffered_bytes tsA "hello".toList envOk envOk envOk
      ctxBasic w0).2.2.1 (by decide) (by decide) (by decide)⟩

set_option maxRecDepth 4000 in
/-- Claim C4 counterexample: after one Error call on a fresh context,
total_written is 35 although zero bytes have been committed to the file
(no chunks were appended and the file is unchanged), refuting that
total_written equals the cumulative bytes committed to the file. -/
theorem claim_C4_counterexample :
    runC4.status = TEXTLOGGER_SUCCESS ∧
    ctxBasic.totalBytesStored = 0 ∧
    runC4.ctx.totalBytesStored = 35 ∧
    runC4.chunks = [] ∧
    runC4.world = w0 := by
  decide

/-- snprintf stores the whole string when the size argument strictly
exceeds its length. -/
theorem snprintfStored_full (size : Int) (s : List Char)
    (h : (s.length : Int) < size) :
    snprintfStored size s = s := by
  unfold snprintfStored
  rw [if_neg (by omega)]
  have hmin : min (size - 1).toNat s.length = s.length := by omega
  rw [hmin, List.take_length]

/-- A successful flush appends the whole scratch buffer in a single chunk
(or nothing at all when the buffer was empty). -/
theorem flush_drain_one_append (env : FsEnv) (ctx : LoggerContext) (w : World)
    (hlen : ctx.pTextBuffer.length = ctx.currBytePos.toNat) :
    (TextLogger_FlushTextToFileStream env ctx w).status = TEXTLOGGER_SUCCESS →
    (TextLogger_FlushTextToFileStream env ctx w).chunks = [] ∧ ctx.currBytePos = 0 ∨
    (TextLogger_FlushTextToFileStream env ctx w).chunks =
      [{ bytes := ctx.pTextBuffer, fromBuffer := true }] := by
  unfold TextLogger_FlushTextToFileStream
  dsimp only
  repeat' split
  all_goals intro h
  all_goals simp_all [errMsgFlush_ctx, List.take_length]

/-- When the tagged line fits below the buffer capacity, a successful
write-record call leaves tag, payload and newline contiguously as a suffix
of the scratch buffer: they were appended by one formatter call after any
intermediate flush, and will therefore reach the file inside a single
buffer-drain chunk. -/
theorem writeToBuffer_tagline_suffix (ts : List Char) (e1 e2 : FsEnv)
    (ctx : LoggerContext) (w : World) (text : List Char)
    (logLength logLevel : Int)
    (hs : (((logMsgTag logLevel ++ text ++ ['\n']).length : Int)) ≤ logLength)
    (hcap : logLength < ctx.maxBufferByteSize) :
    (TextLogger_WriteToBuffer ts e1 e2 ctx w text logLength logLevel).status =
      TEXTLOGGER_SUCCESS →
    (logMsgTag logLevel ++ text ++ ['\n']) <:+
      (TextLogger_WriteToBuffer ts e1 e2 ctx w text logLength logLevel).ctx.pTextBuffer := by
  have hcap1 := logTimeStamp_maxBufferByteSize ts e1 ctx w
  unfold TextLogger_WriteToBuffer
  dsimp only
  split
  · rename_i hfail
    intro h
    exact absurd h hfail
  · split
    · split
      · rename_i hfail
        intro h
        exact absurd h hfail
      · rename_i hsucc
        intro h
        have hs2 : (TextLogger_FlushTextToFileStream e2
            (TextLogger_LogTimeStamp ts e1 ctx w).ctx
            (TextLogger_LogTimeStamp ts e1 ctx w).world).status =
            TEXTLOGGER_SUCCESS := by
          by_contra hcon
          exact hsucc hcon
        have hp := flush_success_currBytePos e2 _ _ hs2
        obtain hc := (flush_config e2 (TextLogger_LogTimeStamp ts e1 ctx w).ctx
          (TextLogger_LogTimeStamp ts e1 ctx w).world).1
        unfold snprintfAppend
        dsimp only
        rw [hp, hc, hcap1, snprintfStored_full _ _ (by omega)]
        exact ⟨_, rfl⟩
    · rename_i hpred
      intro h
      have hside : ¬ ((TextLogger_LogTimeStamp ts e1 ctx w).ctx.maxBufferByteSize -
          (TextLogger_LogTimeStamp ts e1 ctx w).ctx.currBytePos ≤ logLength) := by
        intro hcon
        exact hpred ((flushNeeded_iff _ logLength).mpr (Or.inr hcon))
      unfold snprintfAppend
      dsimp only
      rw [snprintfStored_full _ _ (by omega)]
      exact ⟨_, rfl⟩

/-- Claim C6 (amended): the tag, payload and newline of an admitted record
are never split across flushes: a successful flush drains the whole buffer
in exactly one append, and a successful admitted log call leaves tag,
payload and newline contiguous at the end of the buffer. The timestamp
prefix, however, CAN be flushed separately from the rest of the record
when the intermediate flush fires between the two formatter calls (see
the counterexample). -/
theorem claim_C6_tagline_single_append (ts text : List Char) (env e1 e2 : FsEnv)
    (ctx : LoggerContext) (w : World)
    (hlen : ctx.pTextBuffer.length = ctx.currBytePos.toNat)
    (htext : (text.length : Int) + 6 < ctx.maxBufferByteSize) :
    ((TextLogger_FlushTextToFileStream env ctx w).status = TEXTLOGGER_SUCCESS →
      (TextLogger_FlushTextToFileStream env ctx w).chunks = [] ∧ ctx.currBytePos = 0 ∨
      (TextLogger_FlushTextToFileStream env ctx w).chunks =
        [{ bytes := ctx.pTextBuffer, fromBuffer := true }]) ∧
    (LOG_LEVEL_ERROR ≤ ctx.logLevel →
      (TextLogger_LogError ts e1 e2 ctx w text).status = TEXTLOGGER_SUCCESS →
      (logMsgTag LOG_LEVEL_ERROR ++ text ++ ['\n']) <:+
        (TextLogger_LogError ts e1 e2 ctx w text).ctx.pTextBuffer) ∧
    (LOG_LEVEL_WARN ≤ ctx.logLevel →
      (TextLogger_LogWarn ts e1 e2 ctx w text).status = TEXTLOGGER_SUCCESS →
      (logMsgTag LOG_LEVEL_WARN ++ text ++ ['\n']) <:+
        (TextLogger_LogWarn ts e1 e2 ctx w text).ctx.pTextBuffer) ∧
    (LOG_LEVEL_INFO ≤ ctx.logLevel →
      (TextLogger_LogInfo ts e1 e2 ctx w text).status = TEXTLOGGER_SUCCESS →
      (logMsgTag LOG_LEVEL_INFO ++ text ++ ['\n']) <:+
        (TextLogger_LogInfo ts e1 e2 ctx w text).ctx.pTextBuffer) ∧
    (LOG_LEVEL_DEBUG ≤ ctx.logLevel →
      (TextLogger_LogDebug ts e1 e2 ctx w text).status = TEXTLOGGER_SUCCESS →
      (logMsgTag LOG_LEVEL_DEBUG ++ text ++ ['\n']) <:+
        (TextLogger_LogDebug ts e1 e2 ctx w text).ctx.pTextBuffer) ∧
    (LOG_LEVEL_VERBOSE ≤ ctx.logLevel →
      (TextLogger_LogVerbose ts e1 e2 ctx w text).status = TEXTLOGGER_SUCCESS →
      (logMsgTag LOG_LEVEL_VERBOSE ++ text ++ ['\n']) <:+
        (TextLogger_LogVerbose ts e1 e2 ctx w text).ctx.pTextBuffer) := by
  have h6 : LOG_EXTRA_STR_LENGTH = 6 := rfl
  refine ⟨flush_drain_one_append env ctx w hlen, fun hk => ?_, fun hk => ?_,
    fun hk => ?_, fun hk => ?_, fun hk => ?_⟩
  · unfold TextLogger_LogError
    rw [if_pos hk]
    exact writeToBuffer_tagline_suffix ts e1 e2 ctx w text _ _
      (by have := tagLine_length_le LOG_LEVEL_ERROR text; omega) (by omega)
  · unfold TextLogger_LogWarn
    rw [if_pos hk]
    exact writeToBuffer_tagline_suffix ts e1 e2 ctx w text _ _
      (by have := tagLine_length_le LOG_LEVEL_WARN text; omega) (by omega)
  · unfold TextLogger_LogInfo
    rw [if_pos hk]
    exact writeToBuffer_tagline_suffix ts e1 e2 ctx w text _ _
      (by have := tagLine_length_le LOG_LEVEL_INFO text; omega) (by omega)
  · unfold TextLogger_LogDebug
    rw [if_pos hk]
    exact writeToBuffer_tagline_suffix ts e1 e2 ctx w text _ _
      (by have := tagLine_length_le LOG_LEVEL_DEBUG text; omega) (by omega)
  · unfold TextLogger_LogVerbose
    rw [if_pos hk]
    exact writeToBuffer_tagline_suffix ts e1 e2 ctx w text _ _
      (by have := tagLine_length_le LOG_LEVEL_VERBOSE text; omega) (by omega)

set_option maxRecDepth 4000 in
/-- Claim C6 witness: on the 40-byte-buffer context, the Info record of
runB1 leaves its tagged line contiguous in the buffer, and the following
flush of runB2 drains that buffer in exactly one chunk. -/
theorem claim_C6_witness :
    ctxSplit.pTextBuffer.length = ctxSplit.currBytePos.toNat ∧
    ((List.replicate 20 'x').length : Int) + 6 < ctxSplit.maxBufferByteSize ∧
    LOG_LEVEL_INFO ≤ ctxSplit.logLevel ∧
    (TextLogger_LogInfo tsA envOk envOk ctxSplit w0 (List.replicate 20 'x')).status =
      TEXTLOGGER_SUCCESS ∧
    ((logMsgTag LOG_LEVEL_INFO ++ List.replicate 20 'x' ++ ['\n']) <:+
      (TextLogger_LogInfo tsA envOk envOk ctxSplit w0
        (List.replicate 20 'x')).ctx.pTextBuffer) ∧
    runB1.ctx.pTextBuffer.length = runB1.ctx.currBytePos.toNat ∧
    (TextLogger_FlushTextToFileStream envOk runB1.ctx runB1.world).status =
      TEXTLOGGER_SUCCESS ∧
    ((TextLogger_FlushTextToFileStream envOk runB1.ctx runB1.world).chunks = [] ∧
        runB1.ctx.currBytePos = 0 ∨
      (TextLogger_FlushTextToFileStream envOk runB1.ctx runB1.world).chunks =
        [{ bytes := runB1.ctx.pTextBuffer, fromBuffer := true }]) :=
  ⟨by decide, by decide, by decide, by decide,
   (claim_C6_tagline_single_append tsA (List.replicate 20 'x') envOk envOk envOk
      ctxSplit w0 (by decide) (by decide)).2.2.2.1 (by decide) (by decide),
   by decide, by decide,
   (claim_C6_tagline_single_append tsA (List.replicate 20 'x') envOk envOk envOk
      runB1.ctx runB1.world (by decide) (by decide)).1 (by decide)⟩

set_option maxRecDepth 4000 in
/-- Claim C6 counterexample: the Info record of runB1 IS split across two
flush appends: its 24-byte timestamp prefix is written to the file by the
intermediate flush inside the log call itself, while the tag, payload and
newline stay in the buffer and reach the file only in the separate later
append of runB2 — refuting that timestamp, tag, payload and newline of an
admitted record all land within a single flush append. -/
theorem claim_C6_counterexample :
    runB1.status = TEXTLOGGER_SUCCESS ∧
    runB1.chunks = [{ bytes := tsA, fromBuffer := true }] ∧
    runB1.ctx.pTextBuffer = "[I]: xxxxxxxxxxxxxxxxxxxx".toList ++ ['\n'] ∧
    runB2.chunks =
      [{ bytes := "[I]: xxxxxxxxxxxxxxxxxxxx".toList ++ ['\n'], fromBuffer := true }] := by
  decide

/-- A flush that returns a file error leaves the scratch buffer, cursor
and accounting untouched; the limit flag is unchanged except that the
budget-reached branch latches it true BEFORE the failing end-marker
write. -/
theorem flush_fileError_frame (env : FsEnv) (ctx : LoggerContext) (w : World) :
    (TextLogger_FlushTextToFileStream env ctx w).status = TEXTLOGGER_ERR_FILE_ERROR →
    (TextLogger_FlushTextToFileStream env ctx w).ctx.pTextBuffer = ctx.pTextBuffer ∧
    (TextLogger_FlushTextToFileStream env ctx w).ctx.currBytePos = ctx.currBytePos ∧
    (TextLogger_FlushTextToFileStream env ctx w).ctx.totalBytesStored =
      ctx.totalBytesStored ∧
    ((TextLogger_FlushTextToFileStream env ctx w).ctx.fileLimitIsReached =
        ctx.fileLimitIsReached ∨
      (ctx.maxFileSize ≤ ctx.totalBytesStored ∧ ctx.fileLimitIsReached = false ∧
        (TextLogger_FlushTextToFileStream env ctx w).ctx.fileLimitIsReached = true)) := by
  unfold TextLogger_FlushTextToFileStream
  dsimp only
  repeat' split
  all_goals intro h
  all_goals simp_all [errMsgFlush_ctx]

/-- A timestamp call that returns a file error (a failure of its inner
flush) has the same frame as that failing flush. -/
theorem logTimeStamp_fileError_frame (ts : List Char) (env : FsEnv)
    (ctx : LoggerContext) (w : World) :
    (TextLogger_LogTimeStamp ts env ctx w).status = TEXTLOGGER_ERR_FILE_ERROR →
    (TextLogger_LogTimeStamp ts env ctx w).ctx.pTextBuffer = ctx.pTextBuffer ∧
    (TextLogger_LogTimeStamp ts env ctx w).ctx.currBytePos = ctx.currBytePos ∧
    (TextLogger_LogTimeStamp ts env ctx w).ctx.totalBytesStored =
      ctx.totalBytesStored ∧
    ((TextLogger_LogTimeStamp ts env ctx w).ctx.fileLimitIsReached =
        ctx.fileLimitIsReached ∨
      (ctx.maxFileSize ≤ ctx.totalBytesStored ∧ ctx.fileLimitIsReached = false ∧
        (TextLogger_LogTimeStamp ts env ctx w).ctx.fileLimitIsReached = true)) := by
  unfold TextLogger_LogTimeStamp
  dsimp only
  split
  · split
    · exact fun h => flush_fileError_frame env ctx w h
    · intro h
      exact absurd h (by simp)
  · intro h
    exact absurd h (by simp)

/-- A timestamp call changes totalBytesStored by zero or by the timestamp
length. -/
theorem logTimeStamp_total_cases (ts : List Char) (env : FsEnv)
    (ctx : LoggerContext) (w : World) :
    (TextLogger_LogTimeStamp ts env ctx w).ctx.totalBytesStored =
      ctx.totalBytesStored ∨
    (TextLogger_LogTimeStamp ts env ctx w).ctx.totalBytesStored =
      ctx.totalBytesStored + (ts.length : Int) := by
  unfold TextLogger_LogTimeStamp
  dsimp only
  split
  · split
    · exact Or.inl (flush_totalBytesStored env ctx w)
    · right
      rw [snprintfAppend_totalBytesStored, flush_totalBytesStored]
  · right
    rw [snprintfAppend_totalBytesStored]

/-- The limit flag after a timestamp call is either untouched or true. -/
theorem logTimeStamp_marker_cases (ts : List Char) (env : FsEnv)
    (ctx : LoggerContext) (w : World) :
    (TextLogger_LogTimeStamp ts env ctx w).ctx.fileLimitIsReached =
      ctx.fileLimitIsReached ∨
    (TextLogger_LogTimeStamp ts env ctx w).ctx.fileLimitIsReached = true := by
  unfold TextLogger_LogTimeStamp
  dsimp only
  split
  · split
    · exact flush_fileLimit_cases env ctx w
    · rcases flush_fileLimit_cases env ctx w with h | h
      · left
        rw [snprintfAppend_fileLimitIsReached, h]
      · right
        rw [snprintfAppend_fileLimitIsReached, h]
  · left
    rw [snprintfAppend_fileLimitIsReached]

/-- A write-record call that returns a file error advanced accounting by
zero bytes or by exactly the already-buffered timestamp; the limit flag is
either untouched or latched true. -/
theorem writeToBuffer_fileError_frame (ts : List Char) (e1 e2 : FsEnv)
    (ctx : LoggerContext) (w : World) (text : List Char)
    (logLength logLevel : Int) :
    (TextLogger_WriteToBuffer ts e1 e2 ctx w text logLength logLevel).status =
      TEXTLOGGER_ERR_FILE_ERROR →
    ((TextLogger_WriteToBuffer ts e1 e2 ctx w text logLength logLevel).ctx.totalBytesStored =
        ctx.totalBytesStored ∨
      (TextLogger_WriteToBuffer ts e1 e2 ctx w text logLength logLevel).ctx.totalBytesStored =
        ctx.totalBytesStored + (ts.length : Int)) ∧
    ((TextLogger_WriteToBuffer ts e1 e2 ctx w text logLength logLevel).ctx.fileLimitIsReached =
        ctx.fileLimitIsReached ∨
      (TextLogger_WriteToBuffer ts e1 e2 ctx w text logLength logLevel).ctx.fileLimitIsReached =
        true) := by
  unfold TextLogger_WriteToBuffer
  dsimp only
  split
  · intro h
    exact ⟨logTimeStamp_total_cases ts e1 ctx w, logTimeStamp_marker_cases ts e1 ctx w⟩
  · split
    · split
      · intro h
        have ht2 := flush_totalBytesStored e2 (TextLogger_LogTimeStamp ts e1 ctx w).ctx
          (TextLogger_LogTimeStamp ts e1 ctx w).world
        have hm2 := flush_fileLimit_cases e2 (TextLogger_LogTimeStamp ts e1 ctx w).ctx
          (TextLogger_LogTimeStamp ts e1 ctx w).world
        constructor
        · dsimp only
          rw [ht2]
          exact logTimeStamp_total_cases ts e1 ctx w
        · dsimp only
          rcases hm2 with h2 | h2
          · rw [h2]
            exact logTimeStamp_marker_cases ts e1 ctx w
          · right
            exact h2
      · intro h
        exact absurd h (by simp)
    · intro h
      exact absurd h (by simp)

/-- Claim C7 (amended): when FLUSH (or destroy, or a timestamp call)
returns FILE_ERROR, the scratch buffer contents, buffer_used and
total_written are preserved; the limit flag is unchanged EXCEPT that the
budget-reached branch latches it true before attempting the end-marker
write, so a flush whose end-marker write fails leaves the flag latched,
not as it was. A per-severity log call returning FILE_ERROR may moreover
retain its already-buffered timestamp: total_written is advanced by zero
or by the timestamp length. -/
theorem claim_C7_file_error_effects (ts text : List Char) (env e1 e2 : FsEnv)
    (ctx : LoggerContext) (w : World) :
    ((TextLogger_FlushTextToFileStream env ctx w).status = TEXTLOGGER_ERR_FILE_ERROR →
      (TextLogger_FlushTextToFileStream env ctx w).ctx.pTextBuffer = ctx.pTextBuffer ∧
      (TextLogger_FlushTextToFileStream env ctx w).ctx.currBytePos = ctx.currBytePos ∧
      (TextLogger_FlushTextToFileStream env ctx w).ctx.totalBytesStored =
        ctx.totalBytesStored ∧
      ((TextLogger_FlushTextToFileStream env ctx w).ctx.fileLimitIsReached =
          ctx.fileLimitIsReached ∨
        (ctx.maxFileSize ≤ ctx.totalBytesStored ∧ ctx.fileLimitIsReached = false ∧
          (TextLogger_FlushTextToFileStream env ctx w).ctx.fileLimitIsReached = true))) ∧
    ((TextLogger_Destroy env ctx w).status = TEXTLOGGER_ERR_FILE_ERROR →
      (TextLogger_Destroy env ctx w).ctx.pTextBuffer = ctx.pTextBuffer ∧
      (TextLogger_Destroy env ctx w).ctx.currBytePos = ctx.currBytePos ∧
      (TextLogger_Destroy env ctx w).ctx.totalBytesStored = ctx.totalBytesStored) ∧
    ((TextLogger_LogTimeStamp ts env ctx w).status = TEXTLOGGER_ERR_FILE_ERROR →
      (TextLogger_LogTimeStamp ts env ctx w).ctx.pTextBuffer = ctx.pTextBuffer ∧
      (TextLogger_LogTimeStamp ts env ctx w).ctx.currBytePos = ctx.currBytePos ∧
      (TextLogger_LogTimeStamp ts env ctx w).ctx.totalBytesStored =
        ctx.totalBytesStored) ∧
    ((TextLogger_LogError ts e1 e2 ctx w text).status = TEXTLOGGER_ERR_FILE_ERROR →
      ((TextLogger_LogError ts e1 e2 ctx w text).ctx.totalBytesStored =
          ctx.totalBytesStored ∨
        (TextLogger_LogError ts e1 e2 ctx w text).ctx.totalBytesStored =
          ctx.totalBytesStored + (ts.length : Int)) ∧
      ((TextLogger_LogError ts e1 e2 ctx w text).ctx.fileLimitIsReached =
          ctx.fileLimitIsReached ∨
        (TextLogger_LogError ts e1 e2 ctx w text).ctx.fileLimitIsReached = true)) ∧
    ((TextLogger_LogWarn ts e1 e2 ctx w text).status = TEXTLOGGER_ERR_FILE_ERROR →
      ((TextLogger_LogWarn ts e1 e2 ctx w text).ctx.totalBytesStored =
          ctx.totalBytesStored ∨
        (TextLogger_LogWarn ts e1 e2 ctx w text).ctx.totalBytesStored =
          ctx.totalBytesStored + (ts.length : Int)) ∧
      ((TextLogger_LogWarn ts e1 e2 ctx w text).ctx.fileLimitIsReached =
          ctx.fileLimitIsReached ∨
        (TextLogger_LogWarn ts e1 e2 ctx w text).ctx.fileLimitIsReached = true)) ∧
    ((TextLogger_LogInfo ts e1 e2 ctx w text).status = TEXTLOGGER_ERR_FILE_ERROR →
      ((TextLogger_LogInfo ts e1 e2 ctx w text).ctx.totalBytesStored =
          ctx.totalBytesStored ∨
        (TextLogger_LogInfo ts e1 e2 ctx w text).ctx.totalBytesStored =
          ctx.totalBytesStored + (ts.length : Int)) ∧
      ((TextLogger_LogInfo ts e1 e2 ctx w text).ctx.fileLimitIsReached =
          ctx.fileLimitIsReached ∨
        (TextLogger_LogInfo ts e1 e2 ctx w text).ctx.fileLimitIsReached = true)) ∧
    ((TextLogger_LogDebug ts e1 e2 ctx w text).status = TEXTLOGGER_ERR_FILE_ERROR →
      ((TextLogger_LogDebug ts e1 e2 ctx w text).ctx.totalBytesStored =
          ctx.totalBytesStored ∨
        (TextLogger_LogDebug ts e1 e2 ctx w text).ctx.totalBytesStored =
          ctx.totalBytesStored + (ts.length : Int)) ∧
      ((TextLogger_LogDebug ts e1 e2 ctx w text).ctx.fileLimitIsReached =
          ctx.fileLimitIsReached ∨
        (TextLogger_LogDebug ts e1 e2 ctx w text).ctx.fileLimitIsReached = true)) ∧
    ((TextLogger_LogVerbose ts e1 e2 ctx w text).status = TEXTLOGGER_ERR_FILE_ERROR →
      ((TextLogger_LogVerbose ts e1 e2 ctx w text).ctx.totalBytesStored =
          ctx.totalBytesStored ∨
        (TextLogger_LogVerbose ts e1 e2 ctx w text).ctx.totalBytesStored =
          ctx.totalBytesStored + (ts.length : Int)) ∧
      ((TextLogger_LogVerbose ts e1 e2 ctx w text).ctx.fileLimitIsReached =
          ctx.fileLimitIsReached ∨
        (TextLogger_LogVerbose ts e1 e2 ctx w text).ctx.fileLimitIsReached = true)) := by
  refine ⟨flush_fileError_frame env ctx w,
    fun h => ?_, fun h => ?_, ?_, ?_, ?_, ?_, ?_⟩
  · obtain ⟨h1, h2, h3, -⟩ := flush_fileError_frame env ctx w h
    exact ⟨h1, h2, h3⟩
  · obtain ⟨h1, h2, h3, -⟩ := logTimeStamp_fileError_frame ts env ctx w h
    exact ⟨h1, h2, h3⟩
  · unfold TextLogger_LogError
    split
    · exact writeToBuffer_fileError_frame ts e1 e2 ctx w text _ _
    · intro h
      exact absurd h (by simp)
  · unfold TextLogger_LogWarn
    split
    · exact writeToBuffer_fileError_frame ts e1 e2 ctx w text _ _
    · intro h
      exact absurd h (by simp)
  · unfold TextLogger_LogInfo
    split
    · exact writeToBuffer_fileError_frame ts e1 e2 ctx w text _ _
    · intro h
      exact absurd h (by simp)
  · unfold TextLogger_LogDebug
    split
    · exact writeToBuffer_fileError_frame ts e1 e2 ctx w text _ _
    · intro h
      exact absurd h (by simp)
  · unfold TextLogger_LogVerbose
    split
    · exact writeToBuffer_fileError_frame ts e1 e2 ctx w text _ _
    · intro h
      exact absurd h (by simp)

set_option maxRecDepth 4000 in
/-- Claim C7 witness: the failing flush runC7b preserves buffer, cursor
and accounting, and the failing Error call runC7c advanced accounting by
exactly the timestamp length. -/
theorem claim_C7_witness :
    (TextLogger_FlushTextToFileStream envOpenFail runC7a.ctx runC7a.world).status =
      TEXTLOGGER_ERR_FILE_ERROR ∧
    ((TextLogger_FlushTextToFileStream envOpenFail runC7a.ctx runC7a.world).ctx.pTextBuffer =
        runC7a.ctx.pTextBuffer ∧
      (TextLogger_FlushTextToFileStream envOpenFail runC7a.ctx runC7a.world).ctx.currBytePos =
        runC7a.ctx.currBytePos ∧
      (TextLogger_FlushTextToFileStream envOpenFail runC7a.ctx runC7a.world).ctx.totalBytesStored =
        runC7a.ctx.totalBytesStored ∧
      ((TextLogger_FlushTextToFileStream envOpenFail runC7a.ctx runC7a.world).ctx.fileLimitIsReached =
          runC7a.ctx.fileLimitIsReached ∨
        (runC7a.ctx.maxFileSize ≤ runC7a.ctx.totalBytesStored ∧
          runC7a.ctx.fileLimitIsReached = false ∧
          (TextLogger_FlushTextToFileStream envOpenFail runC7a.ctx
            runC7a.world).ctx.fileLimitIsReached = true))) ∧
    (TextLogger_LogError tsA envOk envOpenFail ctxTight27 w0 "msg".toList).status =
      TEXTLOGGER_ERR_FILE_ERROR ∧
    (((TextLogger_LogError tsA envOk envOpenFail ctxTight27 w0 "msg".toList).ctx.totalBytesStored =
        ctxTight27.totalBytesStored ∨
      (TextLogger_LogError tsA envOk envOpenFail ctxTight27 w0
        "msg".toList).ctx.totalBytesStored =
        ctxTight27.totalBytesStored + (tsA.length : Int)) ∧
      ((TextLogger_LogError tsA envOk envOpenFail ctxTight27 w0
          "msg".toList).ctx.fileLimitIsReached = ctxTight27.fileLimitIsReached ∨
        (TextLogger_LogError tsA envOk envOpenFail ctxTight27 w0
          "msg".toList).ctx.fileLimitIsReached = true)) :=
  ⟨by decide,
   (claim_C7_file_error_effects tsA "msg".toList envOpenFail envOk envOpenFail
      runC7a.ctx runC7a.world).1 (by decide),
   by decide,
   (claim_C7_file_error_effects tsA "msg".toList envOk envOk envOpenFail
      ctxTight27 w0).2.2.2.1 (by decide)⟩

set_option maxRecDepth 4000 in
/-- Claim C7 counterexample: the flush runC7b fails its end-marker write
at fopen and returns FILE_ERROR, yet the limit flag goes from false before
the call to true after it (latched before the failing write); and the
Error call runC7c returns FILE_ERROR with total_written advanced from 0
to 24 and the timestamp left in the buffer — refuting that on FILE_ERROR
marker_emitted is unchanged and no accounting is advanced. -/
theorem claim_C7_counterexample :
    runC7a.ctx.fileLimitIsReached = false ∧
    runC7b.status = TEXTLOGGER_ERR_FILE_ERROR ∧
    runC7b.ctx.fileLimitIsReached = true ∧
    ctxTight27.totalBytesStored = 0 ∧
    runC7c.status = TEXTLOGGER_ERR_FILE_ERROR ∧
    runC7c.ctx.totalBytesStored = 24 ∧
    runC7c.ctx.currBytePos = 24 := by
  decide

end CLogger
